import Mathlib

set_option maxRecDepth 100000

/-
Verification development for the MICLLM batch pipeline
(src/pre_process/process_text.py, src/pre_process/vector.py, src/engine.py,
src/post_process/store_results.py, src/inference/chain.py).

The Python code is shallowly embedded: pure helpers become Lean functions,
Python exceptions become the error side of `Except String`, the dynamic type
of the mutated `codes` variable becomes the inductive `CodesVal`, and the
regular expressions of the source are executed by a small backtracking
matcher (`matchRx`) whose quantifiers range over single-character classes,
which covers every pattern appearing in the repository.
-/

namespace MICLLM

/-- Python regex class \s : space, tab, newline, carriage return, vertical tab, form feed. -/
def wsP (c : Char) : Bool :=
  c == ' ' || c == '\t' || c == '\n' || c == '\r' || c == '\x0b' || c == '\x0c'

/-- Python regex class \w (ASCII fragment, the inputs here are latin-1 text). -/
def wordP (c : Char) : Bool := c.isAlpha || c.isDigit || c == '_'

/-- Python regex class \d (ASCII digits). -/
def digitP (c : Char) : Bool := c.isDigit

/-- Character class [A-Z] as written in the country-code pattern. -/
def upperP (c : Char) : Bool := c.isUpper

/-- The class for `.` without DOTALL: any character except newline. -/
def notNlP (c : Char) : Bool := !(c == '\n')

/-- The class for `.` under DOTALL: any character. -/
def anyP (_ : Char) : Bool := true

/-- Captured groups: association list from group index to captured substring. -/
abbrev Caps := List (Nat × String)

/-- Regular expressions as used by the repository: literals, single-character
classes, sequencing, ordered alternation, greedy star/plus and lazy plus over a
character class, greedy option, word boundary, and capture groups.  Quantifiers
over plain character classes are exactly what every pattern in the source needs. -/
inductive Rx where
  | eps : Rx
  | lit : List Char → Rx
  | cls : (Char → Bool) → Rx
  | seq : Rx → Rx → Rx
  | alt : Rx → Rx → Rx
  | opt : Rx → Rx
  | starG : (Char → Bool) → Rx
  | plusG : (Char → Bool) → Rx
  | plusL : (Char → Bool) → Rx
  | wordB : Rx
  | grp : Nat → Rx → Rx

/-- Length of the maximal run of characters satisfying `p` starting at `pos`. -/
def runLen (p : Char → Bool) (input : List Char) (pos : Nat) : Nat :=
  ((input.drop pos).takeWhile p).length

/-- The substring of `input` from position `a` (inclusive) to `b` (exclusive). -/
def sliceStr (input : List Char) (a b : Nat) : String :=
  String.mk ((input.drop a).take (b - a))

/-- Whether the character at `pos` exists and is a word character. -/
def isWordAt (input : List Char) (pos : Nat) : Bool :=
  match input.get? pos with
  | some c => wordP c
  | none => false

/-- Python \b : a word/non-word boundary at `pos`. -/
def boundaryAt (input : List Char) (pos : Nat) : Bool :=
  match pos with
  | 0 => isWordAt input 0
  | p + 1 => isWordAt input (p + 1) != isWordAt input p

/-- CPS backtracking matcher.  `matchRx input r pos caps k` tries to match `r`
at `pos`, extending `caps`, and calls the continuation `k` on every candidate
end position in the preference order of the Python `re` engine (leftmost
alternative first, greedy quantifiers longest first, lazy shortest first). -/
def matchRx (input : List Char) :
    Rx → Nat → Caps → (Nat → Caps → Option (Nat × Caps)) → Option (Nat × Caps)
  | .eps, pos, caps, k => k pos caps
  | .lit cs, pos, caps, k =>
      if cs.isPrefixOf (input.drop pos) then k (pos + cs.length) caps else none
  | .cls p, pos, caps, k =>
      match input.get? pos with
      | some c => if p c then k (pos + 1) caps else none
      | none => none
  | .seq a b, pos, caps, k =>
      matchRx input a pos caps fun pos2 caps2 => matchRx input b pos2 caps2 k
  | .alt a b, pos, caps, k =>
      match matchRx input a pos caps k with
      | some r => some r
      | none => matchRx input b pos caps k
  | .opt r, pos, caps, k =>
      match matchRx input r pos caps k with
      | some r2 => some r2
      | none => k pos caps
  | .starG p, pos, caps, k =>
      ((List.range (runLen p input pos + 1)).reverse).findSome? fun i => k (pos + i) caps
  | .plusG p, pos, caps, k =>
      ((List.range (runLen p input pos)).reverse).findSome? fun j => k (pos + j + 1) caps
  | .plusL p, pos, caps, k =>
      (List.range (runLen p input pos)).findSome? fun j => k (pos + j + 1) caps
  | .wordB, pos, caps, k =>
      if boundaryAt input pos then k pos caps else none
  | .grp n r, pos, caps, k =>
      matchRx input r pos caps fun pos2 caps2 => k pos2 ((n, sliceStr input pos pos2) :: caps2)

/-- Leftmost-biased match of `rx` anchored at `pos`: end position and captures. -/
def reMatchAt (rx : Rx) (input : List Char) (pos : Nat) : Option (Nat × Caps) :=
  matchRx input rx pos [] fun p c => some (p, c)

/-- Scanner for `re.split`: cut the input at every non-overlapping,
left-to-right, nonempty match of `rx`.  Structural recursion on a fuel
argument so that the kernel can evaluate it; the scanning position advances
on every step, so fuel `input.length + 1` always suffices, and the fuel-zero
branch coincides with the exhausted-input branch. -/
def splitScan (rx : Rx) (input : List Char) : Nat → Nat → Nat → List String
  | 0, pieceStart, _ => [sliceStr input pieceStart input.length]
  | fuel + 1, pieceStart, pos =>
      if pos < input.length then
        match reMatchAt rx input pos with
        | some (endPos, _) =>
            if pos < endPos then
              sliceStr input pieceStart pos :: splitScan rx input fuel endPos endPos
            else
              splitScan rx input fuel pieceStart (pos + 1)
        | none => splitScan rx input fuel pieceStart (pos + 1)
      else
        [sliceStr input pieceStart input.length]

/-- Python `re.split(rx, s)` for group-free patterns that cannot match empty. -/
def reSplit (rx : Rx) (s : String) : List String :=
  splitScan rx s.data (s.data.length + 1) 0 0

/-- Scanner for `re.findall`: all non-overlapping matches left to right,
each with its full text and captures.  Fuel as in `splitScan`. -/
def findScan (rx : Rx) (input : List Char) : Nat → Nat → List (String × Caps)
  | 0, _ => []
  | fuel + 1, pos =>
      if pos < input.length then
        match reMatchAt rx input pos with
        | some (endPos, caps) =>
            if pos < endPos then
              (sliceStr input pos endPos, caps) :: findScan rx input fuel endPos
            else
              findScan rx input fuel (pos + 1)
        | none => findScan rx input fuel (pos + 1)
      else
        []

/-- Python `re.findall(rx, s)` for patterns that cannot match empty. -/
def reFindAll (rx : Rx) (s : String) : List (String × Caps) :=
  findScan rx s.data (s.data.length + 1) 0

/-- Scanner for `re.search`: text of the leftmost match, if any.
Fuel as in `splitScan`. -/
def searchScan (rx : Rx) (input : List Char) : Nat → Nat → Option String
  | 0, _ => none
  | fuel + 1, pos =>
      if pos < input.length then
        match reMatchAt rx input pos with
        | some (endPos, _) => some (sliceStr input pos endPos)
        | none => searchScan rx input fuel (pos + 1)
      else
        none

/-- Python `re.search(rx, s)` followed by taking group 0 (the whole match). -/
def reSearchStr (rx : Rx) (s : String) : Option String :=
  searchScan rx s.data (s.data.length + 1) 0

/-- Look up a captured group by index (first capture on the successful path). -/
def capGet (caps : Caps) (n : Nat) : String :=
  match caps.find? fun p => p.fst == n with
  | some p => p.snd
  | none => ""

/-- Sequence a list of regexes. -/
def rxSeq (rs : List Rx) : Rx := rs.foldr Rx.seq Rx.eps

/-- A regex that never matches, used as the unit of ordered alternation. -/
def rxFail : Rx := Rx.cls fun _ => false

/-- Ordered alternation of a list of regexes (leftmost first, as in Python). -/
def rxAlts (rs : List Rx) : Rx := rs.foldr Rx.alt rxFail

/-- Section delimiter of the tagged-era path, source regex `\n=+\n`. -/
def sectionDelimRx : Rx := rxSeq [Rx.lit ['\n'], Rx.plusG (fun c => c == '='), Rx.lit ['\n']]

/-- Article delimiter inside a body section, source regex `\n\-+\n`. -/
def articleDelimRx : Rx := rxSeq [Rx.lit ['\n'], Rx.plusG (fun c => c == '-'), Rx.lit ['\n']]

/-- Section delimiter of the general path, source regex `\n\_+\n`. -/
def generalDelimRx : Rx := rxSeq [Rx.lit ['\n'], Rx.plusG (fun c => c == '_'), Rx.lit ['\n']]

/-- Country-code pattern, source regex `([A-Z]+)-([A-Z]+)`. -/
def codesRx : Rx :=
  rxSeq [Rx.grp 1 (Rx.plusG upperP), Rx.lit ['-'], Rx.grp 2 (Rx.plusG upperP)]

/-- Score/footer metadata line, source regex `SVM score:.*\n` (dot without DOTALL). -/
def svmRx : Rx :=
  rxSeq [Rx.lit "SVM score:".data, Rx.starG notNlP, Rx.lit ['\n']]

/-- Month names in the order of the source alternation. -/
def monthNames : List String :=
  ["January", "February", "March", "April", "May", "June", "July",
   "August", "September", "October", "November", "December"]

/-- Weekday names in the order of the source alternation. -/
def weekdayNames : List String :=
  ["Monday", "Tuesday", "Wednesday", "Thursday", "Friday", "Saturday", "Sunday"]

/-- The `\d{1,2}` piece followed by the literal comma: greedy, two digits tried first. -/
def dayCommaRx : Rx :=
  Rx.seq (Rx.alt (rxSeq [Rx.cls digitP, Rx.cls digitP, Rx.lit [',']])
                 (rxSeq [Rx.cls digitP, Rx.lit [',']]))
         Rx.eps

/-- Publication-date pattern of the source:
`\b(?:January|...|December)\s\d{1,2},\s\d{4}(?:,*\s?)?(?:Monday|...|Sunday)\b`.
Note that the trailing weekday alternation is not optional in the source. -/
def dateRx : Rx :=
  rxSeq [Rx.wordB,
         rxAlts (monthNames.map fun m => Rx.lit m.data),
         Rx.cls wsP,
         dayCommaRx,
         Rx.cls wsP,
         Rx.cls digitP, Rx.cls digitP, Rx.cls digitP, Rx.cls digitP,
         Rx.opt (Rx.seq (Rx.starG (fun c => c == ',')) (Rx.opt (Rx.cls wsP))),
         rxAlts (weekdayNames.map fun w => Rx.lit w.data),
         Rx.wordB]

/-- Date pattern written from the words of the spec, for comparison with
`dateRx`: the form "Month Day, Year[, Weekday]" in which the trailing weekday
(together with its commas and space) is optional. -/
def dateSpecRx : Rx :=
  rxSeq [Rx.wordB,
         rxAlts (monthNames.map fun m => Rx.lit m.data),
         Rx.cls wsP,
         dayCommaRx,
         Rx.cls wsP,
         Rx.cls digitP, Rx.cls digitP, Rx.cls digitP, Rx.cls digitP,
         Rx.opt (rxSeq [Rx.starG (fun c => c == ','), Rx.opt (Rx.cls wsP),
                        rxAlts (weekdayNames.map fun w => Rx.lit w.data)]),
         Rx.wordB]

/-- Answer-block pattern of the Answer Parser, source regex
`-\sDate:\s*(.+?)\n\s*-\sDeath\sCount:\s*(.+?)\n\s*-\sCountries\sinvolved:\s*(.+?)\n\n`
compiled with DOTALL, so the lazy groups match any character. -/
def answerRx : Rx :=
  rxSeq [Rx.lit ['-'], Rx.cls wsP, Rx.lit "Date:".data, Rx.starG wsP,
         Rx.grp 1 (Rx.plusL anyP), Rx.lit ['\n'], Rx.starG wsP,
         Rx.lit ['-'], Rx.cls wsP, Rx.lit "Death".data, Rx.cls wsP, Rx.lit "Count:".data,
         Rx.starG wsP, Rx.grp 2 (Rx.plusL anyP), Rx.lit ['\n'], Rx.starG wsP,
         Rx.lit ['-'], Rx.cls wsP, Rx.lit "Countries".data, Rx.cls wsP, Rx.lit "involved:".data,
         Rx.starG wsP, Rx.grp 3 (Rx.plusL anyP), Rx.lit ['\n', '\n']]

/-- Python str.strip(): drop leading and trailing whitespace. -/
def pyStrip (s : String) : String :=
  String.mk (((s.data.dropWhile wsP).reverse.dropWhile wsP).reverse)

/-- Python list indexing: `IndexError` outside the range. -/
def pyIndex (l : List String) (i : Nat) : Except String String :=
  match l.get? i with
  | some v => Except.ok v
  | none => Except.error "IndexError: list index out of range"

/-- Windows of at most 1000 characters advancing by 800 (so consecutive
windows share 200 characters).  Structural recursion on fuel, which the
wrapper instantiates with the text length, always sufficient. -/
def chunkWindowsF (fuel : Nat) (cs : List Char) : List (List Char) :=
  match fuel with
  | 0 => [cs]
  | fuel + 1 =>
      if cs.length ≤ 1000 then [cs]
      else cs.take 1000 :: chunkWindowsF fuel (cs.drop 800)

/-- Windows of at most 1000 characters with 200 characters of overlap. -/
def chunkWindows (cs : List Char) : List (List Char) :=
  chunkWindowsF cs.length cs

/-- Modelled from the spec: the size-and-overlap text splitter used by the
chunker is the external langchain RecursiveCharacterTextSplitter with chunk
size 1000 and overlap 200, which is not part of this repository.  The spec
describes it as producing chunks of at most 1000 units with at most 200 units
of overlap between neighbours; it returns nothing for whitespace-only text and
returns stripped chunk text. -/
def split_text (s : String) : List String :=
  let t := pyStrip s
  if t.isEmpty then [] else (chunkWindows t.data).map fun cs => String.mk cs

/-- The dynamic type of the Python variable `codes` in
`chunk_file_for_year_content`: it starts as the list returned by
`re.findall`, and the statement `codes = codes[0]` executed inside the
article loop turns it into a tuple, then a one-character string, then `None`. -/
inductive CodesVal where
  | pylist : List (String × String) → CodesVal
  | pair : String → String → CodesVal
  | pystr : String → CodesVal
  | pynone : CodesVal
deriving DecidableEq, Repr

/-- Python `len(codes)`: length of a list, a tuple or a string; `TypeError` on `None`. -/
def pyLen : CodesVal → Except String Nat
  | CodesVal.pylist l => Except.ok l.length
  | CodesVal.pair _ _ => Except.ok 2
  | CodesVal.pystr s => Except.ok s.length
  | CodesVal.pynone => Except.error "TypeError: object of type 'NoneType' has no len()"

/-- Python `codes[0]` on the possible shapes of `codes`. -/
def pyGetFirst : CodesVal → Except String CodesVal
  | CodesVal.pylist [] => Except.error "IndexError: list index out of range"
  | CodesVal.pylist (p :: _) => Except.ok (CodesVal.pair p.fst p.snd)
  | CodesVal.pair a _ => Except.ok (CodesVal.pystr a)
  | CodesVal.pystr s =>
      match s.data with
      | [] => Except.error "IndexError: string index out of range"
      | c :: _ => Except.ok (CodesVal.pystr (String.mk [c]))
  | CodesVal.pynone => Except.error "TypeError: 'NoneType' object is not subscriptable"

/-- The statement `if len(codes) > 1: codes = codes[0] else: codes = None`
executed once per article in the source. -/
def updateCodes (codes : CodesVal) : Except String CodesVal :=
  match pyLen codes with
  | Except.error e => Except.error e
  | Except.ok n => if n > 1 then pyGetFirst codes else Except.ok CodesVal.pynone

/-- A chunk dictionary as appended to `result` in process_text.py:
keys content, country_codes, published_date. -/
structure Chunk where
  content : String
  country_codes : CodesVal
  published_date : Option String
deriving DecidableEq, Repr

/-- The country-code extraction `re.findall(r"([A-Z]+)-([A-Z]+)", header)`,
returning the list of captured pairs. -/
def findCodes (header : String) : List (String × String) :=
  (reFindAll codesRx header).map fun m => (capGet m.snd 1, capGet m.snd 2)

/-- The chunk dictionaries appended for one article: the split body text,
each stamped with the current codes value and the searched date. -/
def articleChunks (codes2 : CodesVal) (pd : Option String) (body : String) : List Chunk :=
  (split_text body).map fun c =>
    { content := c, country_codes := codes2, published_date := pd }

/-- The body of the inner article loop of `chunk_file_for_year_content`:
split off the SVM metadata line, search the first fragment for a date,
execute the codes update, index `content[1]` (IndexError when the SVM line is
missing), split the remainder and stamp every chunk with the current metadata.
Returns the updated `codes` value together with the chunks of this article. -/
def processArticle (codes : CodesVal) (article : String) :
    Except String (CodesVal × List Chunk) :=
  match updateCodes codes with
  | Except.error e => Except.error e
  | Except.ok codes2 =>
      match pyIndex (reSplit svmRx article) 1 with
      | Except.error e => Except.error e
      | Except.ok body =>
          Except.ok (codes2,
            articleChunks codes2
              (reSearchStr dateRx ((reSplit svmRx article).getD 0 "")) body)

/-- Fold of `processArticle` over the articles of one section, threading the
mutated `codes` variable from one article to the next exactly as the source
does. -/
def processArticles (codes : CodesVal) : List String → Except String (List Chunk)
  | [] => Except.ok []
  | a :: rest =>
      match processArticle codes a with
      | Except.error e => Except.error e
      | Except.ok (codes2, chs) =>
          match processArticles codes2 rest with
          | Except.error e => Except.error e
          | Except.ok more => Except.ok (chs ++ more)

/-- One iteration of the section loop at body index `i`: strip the body,
extract the code pairs from the preceding section, split into articles and
process them. -/
def processBody (sections : List String) (i : Nat) : Except String (List Chunk) :=
  processArticles (CodesVal.pylist (findCodes (sections.getD (i - 1) "")))
    (reSplit articleDelimRx (pyStrip (sections.getD i "")))

/-- Fold of `processBody` over the body indices. -/
def processBodies (sections : List String) : List Nat → Except String (List Chunk)
  | [] => Except.ok []
  | i :: rest =>
      match processBody sections i with
      | Except.error e => Except.error e
      | Except.ok chs =>
          match processBodies sections rest with
          | Except.error e => Except.error e
          | Except.ok more => Except.ok (chs ++ more)

/-- The indices visited by `range(2, n, 2)`. -/
def bodyIdxs (n : Nat) : List Nat :=
  (List.range n).filter fun i => decide (2 ≤ i ∧ i % 2 = 0)

/-- `chunk_file_for_year_content` from process_text.py: split on the section
delimiter and process every even-indexed section from index 2 on as a body,
with the preceding section as its header. -/
def chunk_file_for_year_content (content : String) : Except String (List Chunk) :=
  processBodies (reSplit sectionDelimRx content)
    (bodyIdxs (reSplit sectionDelimRx content).length)

/-- `chunk_file_content` from process_text.py: the general path, splitting on
lines of underscores and attaching no metadata. -/
def chunk_file_content (content : String) : List Chunk :=
  (reSplit generalDelimRx content).flatMap fun sec =>
    (split_text sec).map fun c =>
      { content := c, country_codes := CodesVal.pynone, published_date := none }

/-- The allow-list of era files tested by `read_txt_file`. -/
def yearFiles : List String :=
  ["2002.txt", "2003.txt", "2004.txt", "2005.txt", "2006.txt",
   "2007.txt", "2008.txt", "2009.txt", "2010.txt", "2011.txt"]

/-- `read_txt_file` from process_text.py, as a function of the path passed to
`open` and the file content.  Python `file.name` is exactly the path argument,
so the membership test compares the full path with the bare year names. -/
def read_txt_file (file_path : String) (content : String) :
    Except String (List Chunk × String) :=
  if file_path ∈ yearFiles then
    match chunk_file_for_year_content content with
    | Except.error e => Except.error e
    | Except.ok chs => Except.ok (chs, file_path)
  else
    Except.ok (chunk_file_content content, file_path)

/-- A metadata value of a langchain Document as built in vector.py. -/
inductive MetaVal where
  | codes : CodesVal → MetaVal
  | date : Option String → MetaVal
deriving DecidableEq, Repr

/-- A langchain Document as built in create_vector_store: page content plus a
metadata dictionary with the two keys country_codes and published_date. -/
structure Document where
  page_content : String
  metadata : List (String × MetaVal)
deriving DecidableEq, Repr

/-- An element produced by iterating a Python value: a chunk dictionary when a
list of chunks is iterated, a one-character string when a string is iterated. -/
inductive PyElem where
  | dict : Chunk → PyElem
  | chr : Char → PyElem
deriving DecidableEq, Repr

/-- A Python argument that is either a list of chunk dictionaries or a string;
`create_vector_store` is called with each of its two parameters in either
shape depending on the call site. -/
inductive PyArg where
  | pylist : List Chunk → PyArg
  | pystr : String → PyArg
deriving DecidableEq, Repr

/-- Python iteration over a list of dictionaries or over a string. -/
def pyIter : PyArg → List PyElem
  | PyArg.pylist l => l.map PyElem.dict
  | PyArg.pystr s => s.data.map PyElem.chr

/-- The Document construction of the comprehension in create_vector_store:
`chunk["content"]` etc. succeed on a dictionary and raise a `TypeError` when
`chunk` is a one-character string. -/
def chunkToDoc : PyElem → Except String Document
  | PyElem.dict c =>
      Except.ok { page_content := c.content,
                  metadata := [("country_codes", MetaVal.codes c.country_codes),
                               ("published_date", MetaVal.date c.published_date)] }
  | PyElem.chr _ => Except.error "TypeError: string indices must be integers"

/-- The list comprehension of create_vector_store: documents built in order,
the first failing subscript aborting with its exception. -/
def buildDocs : List PyElem → Except String (List Document)
  | [] => Except.ok []
  | e :: rest =>
      match chunkToDoc e with
      | Except.error err => Except.error err
      | Except.ok d =>
          match buildDocs rest with
          | Except.error err => Except.error err
          | Except.ok ds => Except.ok (d :: ds)

/-- The assertion of create_vector_store: every document carries both
metadata keys. -/
def docHasMeta (d : Document) : Bool :=
  (d.metadata.any fun p => p.fst == "country_codes") &&
  (d.metadata.any fun p => p.fst == "published_date")

/-- Python repr of an optional string. -/
def optRepr : Option String → String
  | none => "None"
  | some s => "'" ++ s ++ "'"

/-- Python repr of the possible shapes of a country_codes value. -/
def codesReprPy : CodesVal → String
  | CodesVal.pynone => "None"
  | CodesVal.pair a b => "('" ++ a ++ "', '" ++ b ++ "')"
  | CodesVal.pystr s => "'" ++ s ++ "'"
  | CodesVal.pylist l =>
      "[" ++ String.intercalate ", "
        (l.map fun p => "('" ++ p.fst ++ "', '" ++ p.snd ++ "')") ++ "]"

/-- Python repr of a chunk dictionary. -/
def chunkReprPy (c : Chunk) : String :=
  "\x7b'content': '" ++ c.content ++ "', 'country_codes': " ++
    codesReprPy c.country_codes ++ ", 'published_date': " ++
    optRepr c.published_date ++ "\x7d"

/-- The f-string conversion applied to the `filename` parameter of
create_vector_store: a string formats as itself, a list as its repr. -/
def pyFormat : PyArg → String
  | PyArg.pystr s => s
  | PyArg.pylist cs => "[" ++ String.intercalate ", " (cs.map chunkReprPy) ++ "]"

/-- Directory under which vector stores are persisted (vector.py). -/
def VECTOR_STORE_PATH : String := "results/vector_stores/"

/-- `create_vector_store(chunks, filename)` from vector.py: build a Document
per chunk, assert the metadata keys, and persist under
`f"[VECTOR_STORE_PATH]/[filename]"`.  The embedding model and the FAISS store
are external; the result is the documents of the store together with the path
it is saved under. -/
def create_vector_store (chunks : PyArg) (filename : PyArg) :
    Except String (List Document × String) :=
  match buildDocs (pyIter chunks) with
  | Except.error e => Except.error e
  | Except.ok documents =>
      if documents.all docHasMeta then
        Except.ok (documents, VECTOR_STORE_PATH ++ "/" ++ pyFormat filename)
      else
        Except.error "AssertionError: All documents must have country_codes and published_date metadata"

/-- The per-file step of `pre_process_vector_store` in engine.py, which calls
`create_vector_store(filename, chunks)` — the arguments in this order, so the
`chunks` parameter receives the filename string and the `filename` parameter
receives the chunk list. -/
def pre_process_file (file_path : String) (content : String) :
    Except String (List Document × String) :=
  match read_txt_file file_path content with
  | Except.error e => Except.error e
  | Except.ok (chunks, filename) =>
      create_vector_store (PyArg.pystr filename) (PyArg.pylist chunks)

/-- The document a chunk is converted to when the comprehension succeeds. -/
def mkDoc (c : Chunk) : Document :=
  { page_content := c.content,
    metadata := [("country_codes", MetaVal.codes c.country_codes),
                 ("published_date", MetaVal.date c.published_date)] }

/-- `retrieve_vector_store(filename)` from vector.py, as a function of the
file-existence predicate of the file system: raise `FileNotFoundError` when
the path is missing.  Loading itself is modelled from the spec (FAISS
`load_local` is external); the returned index handle is the filepath. -/
def retrieve_vector_store (fsExists : String → Bool) (filename : String) :
    Except String String :=
  if fsExists (VECTOR_STORE_PATH ++ "/" ++ filename) then
    Except.ok (VECTOR_STORE_PATH ++ "/" ++ filename)
  else
    Except.error ("FileNotFoundError: Vector store not found at " ++
      (VECTOR_STORE_PATH ++ "/" ++ filename))

/-- The model response dictionary consumed by extract_data; the code reads
its "result" entry. -/
structure ModelResponse where
  result : String
deriving DecidableEq, Repr

/-- One ExtractedFact row: the dictionary with keys Date, Death Count and
Countries involved built in extract_data. -/
structure Fact where
  date : String
  deathCount : String
  countries : String
deriving DecidableEq, Repr

/-- `extract_data` from store_results.py: findall of the answer-block pattern
over the "result" text, each match yielding one stripped row. -/
def extract_data (model_response : ModelResponse) : List Fact :=
  (reFindAll answerRx model_response.result).map fun m =>
    { date := pyStrip (capGet m.snd 1),
      deathCount := pyStrip (capGet m.snd 2),
      countries := pyStrip (capGet m.snd 3) }

/-- Whether the csv writer must quote a field (QUOTE_MINIMAL of the default
excel dialect: delimiter, quote character, or a line-terminator character). -/
def csvNeedsQuote (s : String) : Bool :=
  s.data.any fun c => c == ',' || c == '"' || c == '\r' || c == '\n'

/-- Double every quote character, as the csv writer does inside quoted fields. -/
def escQuotes : List Char → List Char
  | [] => []
  | c :: rest => if c == '"' then '"' :: '"' :: escQuotes rest else c :: escQuotes rest

/-- One csv field, quoted when needed. -/
def csvField (s : String) : String :=
  if csvNeedsQuote s then "\"" ++ String.mk (escQuotes s.data) ++ "\"" else s

/-- The header row written by writeheader (default lineterminator is CRLF). -/
def csvHeader : String := "Date,Death Count,Countries involved\r\n"

/-- One data row in fieldname order Date, Death Count, Countries involved. -/
def csvRow (f : Fact) : String :=
  csvField f.date ++ "," ++ csvField f.deathCount ++ "," ++ csvField f.countries ++ "\r\n"

/-- The text appended by writerows. -/
def csvRows (fs : List Fact) : String := String.join (fs.map csvRow)

/-- `save_to_csv` from store_results.py, as a function of the current file
content (`none` when the file does not exist): extract the rows, write the
header only when the file is new, append the rows.  The result is the file
content after the call. -/
def save_to_csv (model_response : ModelResponse) (fileContent : Option String) : String :=
  match fileContent with
  | none => csvHeader ++ csvRows (extract_data model_response)
  | some c => c ++ csvRows (extract_data model_response)

/-
Helper lemmas shared by the claim theorems.
-/

/-- The body-index list of `range(2, n, 2)` is empty when there are at most
two sections. -/
theorem bodyIdxs_eq_nil (n : Nat) (h : n ≤ 2) : bodyIdxs n = [] := by
  interval_cases n <;> rfl

/-- The document comprehension succeeds on a genuine list of chunk
dictionaries and produces one document per chunk. -/
theorem buildDocs_map_dict (cs : List Chunk) :
    buildDocs (cs.map PyElem.dict) = Except.ok (cs.map mkDoc) := by
  induction cs with
  | nil => rfl
  | cons c rest ih =>
      simp only [List.map_cons, buildDocs, chunkToDoc, ih]
      rfl

/-- Every document built from a chunk passes the metadata assertion. -/
theorem all_docHasMeta_map (cs : List Chunk) :
    (cs.map mkDoc).all docHasMeta = true := by
  induction cs with
  | nil => rfl
  | cons c rest ih =>
      simp only [List.map_cons, List.all_cons, ih, Bool.and_true]
      rfl

/-- Every chunk of the general path carries absent metadata. -/
theorem chunk_file_content_meta (content : String) :
    ∀ ch ∈ chunk_file_content content,
      ch.country_codes = CodesVal.pynone ∧ ch.published_date = none := by
  intro ch hch
  simp only [chunk_file_content, List.mem_flatMap, List.mem_map] at hch
  obtain ⟨sec, _, c, _, rfl⟩ := hch
  exact ⟨rfl, rfl⟩

/-
Claim theorems.
-/

/-- Claim C1: the claim says that a header containing exactly one code pair
XX-YY yields chunks with country_codes (XX, YY).  The code instead tests
`len(codes) > 1`, so a uniquely-occurring pair is dropped: on a tagged-era
input whose header contains exactly the pair US-GB (and the extraction does
find that pair), the produced chunk carries country_codes None. -/
theorem c1_single_code_pair_dropped :
    findCodes "US-GB" = [("US", "GB")] ∧
    chunk_file_for_year_content
        "preamble\n===\nUS-GB\n===\nArticle head March 20, 2003, Thursday\nSVM score: 0.5\nThe body text." =
      Except.ok [{ content := "The body text.", country_codes := CodesVal.pynone,
                   published_date := some "March 20, 2003, Thursday" }] :=
  ⟨rfl, rfl⟩

/-- Claim C2 (amended): when the section-delimiter pattern does not split the
content into more than two sections — in particular for content with no
delimiter at all — the tagged-era chunker returns an empty chunk sequence
without raising.  (The unamended universal claim is refuted by
`c2_missing_svm_line_raises`.) -/
theorem c2_no_delimiter_returns_empty (content : String)
    (h : (reSplit sectionDelimRx content).length ≤ 2) :
    chunk_file_for_year_content content = Except.ok [] := by
  unfold chunk_file_for_year_content
  rw [bodyIdxs_eq_nil _ h]
  rfl

/-- Witness for C2: content with no section delimiter satisfies the
hypothesis and yields the empty chunk sequence. -/
theorem c2_no_delimiter_witness :
    (reSplit sectionDelimRx "hello world").length ≤ 2 ∧
    chunk_file_for_year_content "hello world" = Except.ok [] :=
  ⟨by decide, c2_no_delimiter_returns_empty "hello world" (by decide)⟩

/-- Counterexample to C2 as stated: an article with no score/footer metadata
line makes `content[1]` raise an IndexError, so an unmatched pattern does
abort the run rather than degrading to absent metadata. -/
theorem c2_missing_svm_line_raises :
    chunk_file_for_year_content "pre\n===\nUS-GB\n===\nNo svm line here" =
      Except.error "IndexError: list index out of range" :=
  rfl

/-- Claim C3: the orchestrator is supposed to build the vector store from the
chunk sequence and persist it keyed by the filename, but engine.py calls
`create_vector_store(filename, chunks)` with the arguments transposed, so the
comprehension iterates over the characters of the filename and raises a
TypeError; called with the arguments in the declared order, the function
does build one document per chunk and persists under the filename key. -/
theorem c3_engine_swaps_arguments :
    pre_process_file "data/notes.txt" "hello" =
      Except.error "TypeError: string indices must be integers" ∧
    ∀ (cs : List Chunk) (fn : String),
      create_vector_store (PyArg.pylist cs) (PyArg.pystr fn) =
        Except.ok (cs.map mkDoc, VECTOR_STORE_PATH ++ "/" ++ fn) := by
  refine ⟨rfl, ?_⟩
  intro cs fn
  unfold create_vector_store
  simp only [pyIter, buildDocs_map_dict, all_docHasMeta_map, if_true, pyFormat]

/-- Claim C4 (amended): every chunk produced from one article carries as
published_date exactly the result of searching the first fragment (before the
score/footer metadata line) with the date pattern of the source — and that
pattern requires the trailing weekday name: it accepts
"March 20, 2003, Thursday" and rejects the weekday-less "March 20, 2003".
If no such date is present the published_date is absent. -/
theorem c4_published_date_is_search_result :
    (∀ (codes : CodesVal) (article : String) (c2 : CodesVal) (chs : List Chunk),
       processArticle codes article = Except.ok (c2, chs) →
       ∀ ch ∈ chs,
         ch.published_date = reSearchStr dateRx ((reSplit svmRx article).getD 0 "")) ∧
    reSearchStr dateRx "Article head March 20, 2003, Thursday\n" =
      some "March 20, 2003, Thursday" ∧
    reSearchStr dateRx "Seen on March 20, 2003 in town\n" = none := by
  refine ⟨?_, rfl, rfl⟩
  intro codes article c2 chs h ch hch
  unfold processArticle at h
  split at h
  · exact absurd h (by simp)
  · split at h
    · exact absurd h (by simp)
    · rw [Except.ok.injEq, Prod.mk.injEq] at h
      obtain ⟨-, h2⟩ := h
      subst h2
      simp only [articleChunks, List.mem_map] at hch
      obtain ⟨c, -, rfl⟩ := hch
      rfl

/-- Witness for C4: the chunk produced from a concrete article carries the
searched date string. -/
theorem c4_published_date_witness :
    (Chunk.mk "The body text." CodesVal.pynone (some "March 20, 2003, Thursday")).published_date =
      reSearchStr dateRx
        ((reSplit svmRx "Article head March 20, 2003, Thursday\nSVM score: 0.5\nThe body text.").getD 0 "") :=
  c4_published_date_is_search_result.1 (CodesVal.pylist [("US", "GB")])
    "Article head March 20, 2003, Thursday\nSVM score: 0.5\nThe body text."
    CodesVal.pynone
    [Chunk.mk "The body text." CodesVal.pynone (some "March 20, 2003, Thursday")]
    rfl
    (Chunk.mk "The body text." CodesVal.pynone (some "March 20, 2003, Thursday"))
    (List.mem_cons_self _ _)

/-- Counterexample to C4 as stated: the first fragment of the article contains
"March 20, 2003", a date of the claimed form with the optional weekday absent
(the spec-shaped pattern `dateSpecRx` finds it), yet the produced chunk has
published_date absent, because the source pattern demands a weekday. -/
theorem c4_weekday_not_optional :
    reSearchStr dateSpecRx "Seen on March 20, 2003 in town\n" = some "March 20, 2003" ∧
    chunk_file_for_year_content
        "pre\n===\nUS-GB FR-IQ\n===\nSeen on March 20, 2003 in town\nSVM score: 3\nBody four." =
      Except.ok [{ content := "Body four.", country_codes := CodesVal.pair "US" "GB",
                   published_date := none }] :=
  ⟨rfl, rfl⟩

/-- Claim C5: all articles of one body section are claimed to be stamped with
the same country_codes derived from that section's header.  The code instead
reassigns the section-level `codes` variable inside the article loop: with a
header containing the two pairs US-GB and IQ-AF, the first article's chunk is
stamped ("US", "GB") but the second article's chunk is stamped with the bare
string "US"; and with a single-pair header, the second article's
`len(codes)` is applied to None and raises a TypeError, so not even the
chunk count is produced. -/
theorem c5_codes_not_constant_within_section :
    chunk_file_for_year_content
        "pre\n===\nUS-GB IQ-AF\n===\nA1 head\nSVM score: 1\nBody one.\n---\nA2 head\nSVM score: 2\nBody two." =
      Except.ok
        [{ content := "Body one.", country_codes := CodesVal.pair "US" "GB", published_date := none },
         { content := "Body two.", country_codes := CodesVal.pystr "US", published_date := none }] ∧
    chunk_file_for_year_content
        "pre\n===\nUS-GB\n===\nA1\nSVM score: 1\nBody one.\n---\nA2\nSVM score: 2\nBody two." =
      Except.error "TypeError: object of type 'NoneType' has no len()" :=
  ⟨rfl, rfl⟩

/-- Claim C6 (amended): the dispatch compares the exact path string passed to
open (Python `file.name`) with the bare allow-list entries 2002.txt ...
2011.txt; only such a bare path takes the tagged-era path, and every other
path — including a path like data/2002.txt whose final component is in the
allow-list — takes the general path, whose every chunk carries absent
metadata. -/
theorem c6_dispatch_on_exact_path (path content : String) :
    (path ∈ yearFiles →
       read_txt_file path content =
         (chunk_file_for_year_content content).map fun chs => (chs, path)) ∧
    (path ∉ yearFiles →
       read_txt_file path content = Except.ok (chunk_file_content content, path) ∧
       ∀ ch ∈ chunk_file_content content,
         ch.country_codes = CodesVal.pynone ∧ ch.published_date = none) := by
  constructor
  · intro hmem
    unfold read_txt_file
    rw [if_pos hmem]
    cases chunk_file_for_year_content content <;> rfl
  · intro hnot
    refine ⟨?_, chunk_file_content_meta content⟩
    unfold read_txt_file
    rw [if_neg hnot]

/-- Witness for C6: a non-allow-listed path takes the general path. -/
theorem c6_dispatch_witness :
    read_txt_file "notes.txt" "hello" =
      Except.ok (chunk_file_content "hello", "notes.txt") :=
  ((c6_dispatch_on_exact_path "notes.txt" "hello").2 (by decide)).1

/-- Counterexample to C6 as stated: the path data/2002.txt, whose filename
2002.txt belongs to the allow-list, is chunked by the general path (its
result is the general-path chunk of the content, with absent metadata),
while the tagged-era path would have produced a different result on the same
content. -/
theorem c6_era_file_under_directory :
    read_txt_file "data/2002.txt" "hello" =
      Except.ok ([{ content := "hello", country_codes := CodesVal.pynone,
                    published_date := none }], "data/2002.txt") ∧
    chunk_file_for_year_content "hello" = Except.ok [] :=
  ⟨rfl, rfl⟩

/-- Claim C7: on the literal two-block example, the Answer Parser yields
exactly two ExtractedFacts with the stated field values, the approximate
range preserved verbatim and all fields trimmed. -/
theorem c7_answer_parser_two_blocks :
    extract_data
        ⟨"- Date: 2003-03-20\n- Death Count: 3\n- Countries involved: US, Iraq\n\n- Date: 2003-03-21\n- Death Count: approximately 10-15\n- Countries involved: US, UK, Iraq\n\n"⟩ =
      [{ date := "2003-03-20", deathCount := "3", countries := "US, Iraq" },
       { date := "2003-03-21", deathCount := "approximately 10-15",
         countries := "US, UK, Iraq" }] :=
  rfl

/-- Claim C8: an append to a fresh file writes the header exactly once and
then the rows; a second append to the now-existing file preserves the prior
content unchanged and adds only the new rows, never the header again. -/
theorem c8_csv_append_roundtrip (r1 r2 : ModelResponse) :
    save_to_csv r2 (some (save_to_csv r1 none)) =
      csvHeader ++ csvRows (extract_data r1) ++ csvRows (extract_data r2) ∧
    ∀ c, save_to_csv r2 (some c) = c ++ csvRows (extract_data r2) :=
  ⟨rfl, fun _ => rfl⟩

/-- Claim C9: an answer text in which the block pattern has zero matches
parses to the empty sequence of ExtractedFacts (and the parser is a total
function, so no error is raised). -/
theorem c9_no_match_yields_empty (model_response : ModelResponse)
    (h : reFindAll answerRx model_response.result = []) :
    extract_data model_response = [] := by
  unfold extract_data
  rw [h]
  rfl

/-- Witness for C9: plain prose has zero matches and parses to the empty
sequence. -/
theorem c9_no_match_witness :
    reFindAll answerRx "The quick brown fox jumps over the lazy dog." = [] ∧
    extract_data ⟨"The quick brown fox jumps over the lazy dog."⟩ = [] :=
  ⟨rfl, c9_no_match_yields_empty ⟨"The quick brown fox jumps over the lazy dog."⟩ rfl⟩

/-- Claim C10: when no persisted index exists under the fixed results
directory for a name, loading raises the not-found error; and a successful
load can only happen when the persisted index file exists for that name. -/
theorem c10_retrieve_requires_persisted_index (fsExists : String → Bool) (filename : String) :
    (fsExists (VECTOR_STORE_PATH ++ "/" ++ filename) = false →
       retrieve_vector_store fsExists filename =
         Except.error ("FileNotFoundError: Vector store not found at " ++
           (VECTOR_STORE_PATH ++ "/" ++ filename))) ∧
    (∀ h, retrieve_vector_store fsExists filename = Except.ok h →
       fsExists (VECTOR_STORE_PATH ++ "/" ++ filename) = true) := by
  constructor
  · intro hf
    unfold retrieve_vector_store
    rw [if_neg (by simp [hf])]
  · intro h hok
    cases hc : fsExists (VECTOR_STORE_PATH ++ "/" ++ filename) with
    | true => rfl
    | false =>
        unfold retrieve_vector_store at hok
        rw [if_neg (by simp [hc])] at hok
        exact Except.noConfusion hok

/-- Witness for C10: with an empty file system, loading the index of
2002.txt yields the not-found error. -/
theorem c10_retrieve_witness :
    retrieve_vector_store (fun _ => false) "2002.txt" =
      Except.error ("FileNotFoundError: Vector store not found at " ++
        (VECTOR_STORE_PATH ++ "/" ++ "2002.txt")) :=
  (c10_retrieve_requires_persisted_index (fun _ => false) "2002.txt").1 rfl

end MICLLM
